import Mathlib

/-!
Verification of the MedCode asynchronous document-classification pipeline.

The definitions below are a shallow embedding of the Python sources:
  * `coder_app/models.py`   — the `MedicalDocument` record,
  * `coder_app/tasks.py`    — the Celery task `process_document` (the
    orchestrator: status state machine and retry policy),
  * `coder_app/services.py` — `preprocess_image` (resizing arithmetic) and
    `call_vlm` (fence stripping, JSON parsing, shape validation).
The theorems settle the specification's claims about these components.
-/

/-- JSON values, the shape of what Python's `json.loads` returns for the
classifier response and of what the `vlm_results` JSONField stores.
Numbers are modelled as integers (no classifier-response claim involves
fractional numbers). -/
inductive Json where
  | null
  | bool (b : Bool)
  | num (n : Int)
  | str (s : String)
  | arr (elems : List Json)
  | obj (fields : List (String × Json))

/-- `isinstance(results, list)` from `services.py` line 97. -/
def Json.isArr : Json → Bool
  | .arr _ => true
  | _ => false

/-- Python's `type(...)` name for each JSON value, used in the
`UnexpectedShapeError` diagnostic (`services.py` line 98; the surrounding
`<class ...>` decoration of Python's repr is elided). -/
def pyTypeName : Json → String
  | .null => "NoneType"
  | .bool _ => "bool"
  | .num _ => "int"
  | .str _ => "str"
  | .arr _ => "list"
  | .obj _ => "dict"

/-- Document status values, from `MedicalDocument.STATUS_PENDING`,
`STATUS_PROCESSING`, `STATUS_COMPLETED`, `STATUS_FAILED` in
`coder_app/models.py`. -/
inductive Status where
  | pending
  | processing
  | completed
  | failed
deriving DecidableEq

/-- The persisted fields of a `MedicalDocument` record that the pipeline
reads or writes (`coder_app/models.py`): `status`, the nullable JSON field
`vlm_results` and the nullable text field `error_message`.  The immutable
fields (`id`, `file`, `created_at`) play no role in the claims. -/
structure Doc where
  status : Status
  vlm_results : Option (List Json)
  error_message : Option String

/-- A freshly created document: `status` defaults to `STATUS_PENDING` and
both nullable fields default to `NULL` (`models.py` lines 18-26). -/
def initialDoc : Doc :=
  { status := .pending, vlm_results := none, error_message := none }

/-- The failure taxonomy of the spec: `ImageDecodeError` raised by
preprocessing, and the three classifier-client failures.  In the Python
code these are all plain exceptions (`PIL` decode errors and
`RuntimeError`s); the orchestrator's `except Exception` treats them
uniformly, so the kind is a label carried by the model, never inspected
by the embedded orchestrator. -/
inductive FailureKind where
  | imageDecode
  | classifierUnavailable
  | malformedResponse
  | unexpectedShape
deriving DecidableEq

/-- The outcome of one `call_vlm` invocation as seen by the orchestrator:
either a parsed results list, or an exception with a kind and its
`str(exc)` message. -/
inductive Outcome where
  | success (results : List Json)
  | failure (kind : FailureKind) (msg : String)

/-- `tasks.py` lines 16-17: the orchestrator sets the status to
`processing` and persists it with `update_fields=["status"]` — no other
field is touched. -/
def markProcessing (doc : Doc) : Doc :=
  { doc with status := .processing }

/-- `tasks.py` lines 19-29: on success the update persists
`vlm_results`, `status = completed` and `error_message = None` together;
on failure the update persists `status = failed` and
`error_message = str(exc)` only (`update_fields=["status",
"error_message"]`), leaving `vlm_results` as it was. -/
def applyOutcome (doc : Doc) (o : Outcome) : Doc :=
  match o with
  | .success rs =>
      { doc with vlm_results := some rs, status := .completed,
                 error_message := none }
  | .failure _ msg =>
      { doc with status := .failed, error_message := some msg }

/-- `tasks.py` line 6: `max_retries=2` on the Celery task, i.e. at most
2 redeliveries after the first attempt (3 attempts in total). -/
def MAX_RETRIES : Nat := 2

/-- The retry delay of `default_retry_delay=10` seconds (`tasks.py`
line 6). -/
def RETRY_DELAY : Nat := 10

/-- One run of the `process_document` task chain on an existing record.
`behavior i` is the outcome of `call_vlm` on attempt `i`; `attempt` is the
index of the current attempt and `retriesLeft = MAX_RETRIES - attempt` is
how many redeliveries Celery's `self.retry` will still schedule.  Each
attempt first persists `processing`, then applies the outcome; on failure
with retries remaining, `raise self.retry(exc=exc)` schedules a
redelivery, which re-runs the task on the persisted record.  Returns the
final persisted record and the total number of attempts made. -/
def runAttempts (behavior : Nat → Outcome) : Nat → Nat → Doc → Doc × Nat
  | attempt, retriesLeft, doc =>
    let d1 := markProcessing doc
    match behavior attempt with
    | .success rs => (applyOutcome d1 (.success rs), attempt + 1)
    | .failure k m =>
      match retriesLeft with
      | 0 => (applyOutcome d1 (.failure k m), attempt + 1)
      | r + 1 => runAttempts behavior (attempt + 1) r (applyOutcome d1 (.failure k m))

/-- A single delivery of a document id (`tasks.py` lines 11-17): a missing
record is a no-op (`MedicalDocument.DoesNotExist` is swallowed); an
existing record is processed unconditionally — the code never consults the
current status before re-entering `processing`.  Returns the new record
and the list of states persisted during the delivery, in order. -/
def deliver (db : Option Doc) (o : Outcome) : Option Doc × List Doc :=
  match db with
  | none => (none, [])
  | some doc =>
    let d1 := markProcessing doc
    let d2 := applyOutcome d1 o
    (some d2, [d1, d2])

/-- The sequence of persisted states produced by delivering a document
repeatedly, one attempt outcome per delivery, starting from record
`doc`.  Every element is a state some poll of the status endpoint could
observe. -/
def traceFrom (doc : Doc) : List Outcome → List Doc
  | [] => []
  | o :: rest =>
    let d1 := markProcessing doc
    let d2 := applyOutcome d1 o
    d1 :: d2 :: traceFrom d2 rest

/-- Delivery sequences that never deliver to a record already in
`completed` status (the hypothesis under which the mutual-exclusion
invariant of the spec does hold). -/
def noDeliveryOnCompleted (doc : Doc) : List Outcome → Prop
  | [] => True
  | o :: rest =>
    doc.status ≠ .completed ∧
      noDeliveryOnCompleted (applyOutcome (markProcessing doc) o) rest

/-- `MAX_PIXELS = 2_000_000` from `services.py` line 19. -/
def MAX_PIXELS : Nat := 2000000

/-- One side of the resize target in `services.py` line 27:
`int(side * scale)` with `scale = (MAX_PIXELS / (w * h)) ** 0.5`.  Over
the reals, `⌊side · √(MAX/(w·h))⌋ = ⌊√(side²·MAX/(w·h))⌋`, and the floor
of the square root of a nonnegative real equals `Nat.sqrt` of its floor,
which here is the natural-number division `side·side·MAX / (w·h)`; the
theorem `scaledSide_eq_floor` below proves this embedding equal to the
source's formula.  (Python evaluates the formula in floating point; the
model uses exact real arithmetic, as does the spec.) -/
def scaledSide (side w h : Nat) : Nat :=
  Nat.sqrt (side * side * MAX_PIXELS / (w * h))

/-- The output dimensions of `preprocess_image` (`services.py` lines
24-27): unchanged when `w * h ≤ MAX_PIXELS`, otherwise both sides scaled
by `(MAX_PIXELS / (w * h)) ** 0.5` and truncated with `int`. -/
def resizedDims (w h : Nat) : Nat × Nat :=
  if MAX_PIXELS < w * h then (scaledSide w w h, scaledSide h w h)
  else (w, h)

/-- The backtick character, written via its code point. -/
def tick : Char := Char.ofNat 96

/-- The left brace character, written via its code point. -/
def lbrace : Char := Char.ofNat 123

/-- The right brace character, written via its code point. -/
def rbrace : Char := Char.ofNat 125

/-- Test whether the text begins with three backticks (a fence-marker
match site of the regex in `services.py` line 90). -/
def startsTicks (l : List Char) : Bool :=
  match l with
  | c1 :: c2 :: c3 :: _ => c1 = tick && c2 = tick && c3 = tick
  | _ => false

/-- Consume the optional `json` language tag that the regex greedily
includes in a fence-marker match. -/
def dropTag (l : List Char) : List Char :=
  match l with
  | 'j' :: 's' :: 'o' :: 'n' :: rest => rest
  | r => r

/-- Fuelled worker for `subTicks`: scan left to right; at each position a
run of three backticks, greedily extended by a literal `json` tag, is
deleted and scanning resumes after it; any other character is kept.  Each
step consumes at least one character, so fuel equal to the length of the
input is always enough (`subTicksF_eq` below). -/
def subTicksF : Nat → List Char → List Char
  | 0, l => l
  | f + 1, l =>
    match l with
    | [] => []
    | c :: rest =>
      if startsTicks (c :: rest) then subTicksF f (dropTag (rest.drop 2))
      else c :: subTicksF f rest

/-- Model of `re.sub` with the pattern of `services.py` line 90: delete
every left-to-right non-overlapping occurrence of three backticks with an
optional `json` tag. -/
def subTicks (l : List Char) : List Char := subTicksF l.length l

/-- The characters Python's `str.strip()` removes. -/
def isPyWs (c : Char) : Bool :=
  c = ' ' || c = '\t' || c = '\n' || c = '\r' || c = '\x0b' || c = '\x0c'

/-- Python's `str.strip()` on a character list. -/
def pyStrip (l : List Char) : List Char :=
  ((l.dropWhile isPyWs).reverse.dropWhile isPyWs).reverse

/-- Python's `str.rstrip("`")` on a character list. -/
def pyRstripTick (l : List Char) : List Char :=
  (l.reverse.dropWhile (fun c => c = tick)).reverse

/-- The whole stripping pipeline of `services.py` line 90:
`re.sub(...)` then `.strip()`, `.rstrip` of backticks, `.strip()`. -/
def stripFences (s : String) : String :=
  String.mk (pyStrip (pyRstripTick (pyStrip (subTicks s.data))))

/-- JSON whitespace accepted between tokens by `json.loads`. -/
def isJsonWs (c : Char) : Bool :=
  c = ' ' || c = '\t' || c = '\n' || c = '\r'

/-- Skip JSON whitespace. -/
def skipWs (l : List Char) : List Char :=
  l.dropWhile isJsonWs

/-- JSON string escape sequences (the `\uXXXX` form is not modelled; no
claim involves it). -/
def escChar (e : Char) : Option Char :=
  if e = '"' ∨ e = '\\' ∨ e = '/' then some e
  else if e = 'n' then some (Char.ofNat 10)
  else if e = 't' then some (Char.ofNat 9)
  else if e = 'r' then some (Char.ofNat 13)
  else if e = 'b' then some (Char.ofNat 8)
  else if e = 'f' then some (Char.ofNat 12)
  else none

/-- Parse the body of a JSON string after the opening quote, accumulating
characters until the closing quote. -/
def parseStrBody : List Char → List Char → Option (String × List Char)
  | _, [] => none
  | acc, '"' :: rest => some (String.mk acc.reverse, rest)
  | acc, '\\' :: e :: rest =>
    match escChar e with
    | some ec => parseStrBody (ec :: acc) rest
    | none => none
  | _, ['\\'] => none
  | acc, c :: rest =>
    if c.toNat < 32 then none else parseStrBody (c :: acc) rest

/-- Digits to a natural number. -/
def natOfDigits (l : List Char) : Nat :=
  l.foldl (fun a c => a * 10 + (c.toNat - 48)) 0

/-- Parse a JSON integer literal; fractional and exponent forms are not
modelled (no claim involves them) and make the parse fail. -/
def parseNum (l : List Char) : Option (Json × List Char) :=
  let neg : Bool := l.head? = some (Char.ofNat 45)
  let l1 := if neg then l.tail else l
  let ds := l1.takeWhile Char.isDigit
  let rest := l1.dropWhile Char.isDigit
  if ds.isEmpty then none
  else
    match rest with
    | '.' :: _ => none
    | 'e' :: _ => none
    | 'E' :: _ => none
    | _ =>
      some (.num (if neg then -(natOfDigits ds : Int) else (natOfDigits ds : Int)), rest)

mutual

/-- Recursive-descent model of Python's `json.loads` (the subset relevant
to classifier responses: objects, arrays, strings, integers and
literals), with a fuel argument for termination.  Returns the parsed
value and the unconsumed remainder. -/
def parseVal : Nat → List Char → Option (Json × List Char)
  | 0, _ => none
  | f + 1, l =>
    match skipWs l with
    | [] => none
    | '"' :: rest =>
      match parseStrBody [] rest with
      | some (s, rest2) => some (.str s, rest2)
      | none => none
    | '[' :: rest =>
      match skipWs rest with
      | ']' :: r => some (.arr [], r)
      | l2 => parseArrRest f [] l2
    | 't' :: 'r' :: 'u' :: 'e' :: rest => some (.bool true, rest)
    | 'f' :: 'a' :: 'l' :: 's' :: 'e' :: rest => some (.bool false, rest)
    | 'n' :: 'u' :: 'l' :: 'l' :: rest => some (.null, rest)
    | c :: rest =>
      if c = lbrace then
        match skipWs rest with
        | d :: r2 =>
          if d = rbrace then some (.obj [], r2) else parseObjRest f [] (d :: r2)
        | [] => none
      else parseNum (c :: rest)

/-- Parse the elements of a non-empty JSON array after its opening
bracket, accumulating parsed elements in reverse. -/
def parseArrRest : Nat → List Json → List Char → Option (Json × List Char)
  | 0, _, _ => none
  | f + 1, acc, l =>
    match parseVal f l with
    | none => none
    | some (v, rest) =>
      match skipWs rest with
      | ',' :: r => parseArrRest f (v :: acc) r
      | ']' :: r => some (.arr (v :: acc).reverse, r)
      | _ => none

/-- Parse the members of a non-empty JSON object after its opening brace,
accumulating parsed key-value pairs in reverse. -/
def parseObjRest : Nat → List (String × Json) → List Char → Option (Json × List Char)
  | 0, _, _ => none
  | f + 1, acc, l =>
    match skipWs l with
    | '"' :: rest =>
      match parseStrBody [] rest with
      | none => none
      | some (key, rest2) =>
        match skipWs rest2 with
        | ':' :: rest3 =>
          match parseVal f rest3 with
          | none => none
          | some (v, rest4) =>
            match skipWs rest4 with
            | ',' :: r => parseObjRest f ((key, v) :: acc) r
            | d :: r =>
              if d = rbrace then some (.obj ((key, v) :: acc).reverse, r) else none
            | _ => none
        | _ => none
    | _ => none

end

/-- Model of `json.loads` on a whole string: parse one value and require
only trailing whitespace after it. -/
def parseJsonText (s : String) : Option Json :=
  match parseVal (2 * s.length + 4) s.data with
  | some (j, rest) => if skipWs rest = [] then some j else none
  | none => none

/-- The typed failures of the classifier client (`services.py` raises
`RuntimeError` in three distinct places; the spec names them
`ClassifierUnavailableError`, `MalformedResponseError`,
`UnexpectedShapeError`). -/
inductive VlmError where
  | classifierUnavailable (statusCode : Nat) (bodyExcerpt : String)
  | malformedResponse (excerpt : String)
  | unexpectedShape (typeName : String)
deriving DecidableEq

/-- The response-validation pipeline of `call_vlm` (`services.py` lines
90-100) applied to the raw text content of the classifier response:
strip fences, parse as JSON (`MalformedResponseError` with the first 200
characters on failure), require a JSON array (`UnexpectedShapeError`
otherwise), and return the element list without inspecting the
elements. -/
def call_vlm_validate (content : String) : Except VlmError (List Json) :=
  let c := stripFences content
  match parseJsonText c with
  | none => .error (.malformedResponse (c.take 200))
  | some (.arr es) => .ok es
  | some j => .error (.unexpectedShape (pyTypeName j))

/-- Example results payload: one ICD-10 code entry. -/
def pEx : List Json :=
  [Json.obj [("code", Json.str "J18.9"), ("description", Json.str "Pneumonia")]]

/-- A record that already completed successfully. -/
def completedDocEx : Doc :=
  { status := .completed, vlm_results := some pEx, error_message := none }

/-- Classifier stub that fails on attempts 0 and 1 and succeeds on
attempt 2. -/
def bStub : Nat → Outcome := fun i =>
  if i < 2 then .failure .classifierUnavailable "boom" else .success pEx

/-- Classifier stub that always fails. -/
def cStub : Nat → Outcome := fun _ => .failure .classifierUnavailable "boom"

/-- Stub whose every attempt fails while decoding the image. -/
def imgStub : Nat → Outcome := fun _ => .failure .imageDecode "cannot identify image file"

/-- Stub that fails to decode the image once, then succeeds. -/
def imgOnceStub : Nat → Outcome := fun i =>
  if i = 0 then .failure .imageDecode "cannot identify image file" else .success pEx

/-- A record left by a failed attempt. -/
def failedDocEx : Doc :=
  { status := .failed, vlm_results := none, error_message := some "boom" }

/-- Delivery sequence: a successful attempt, then a redelivery whose
attempt fails. -/
def osEx : List Outcome := [.success pEx, .failure .classifierUnavailable "boom"]

/-- Delivery sequence: a failing attempt, then a redelivery whose attempt
succeeds. -/
def os2Ex : List Outcome := [.failure .classifierUnavailable "boom", .success pEx]

/-- The classifier response text of the round-trip property. -/
def exJText : String :=
  "[\x7b\"code\":\"J18.9\",\"description\":\"Pneumonia, unspecified organism\"\x7d]"

/-- The parsed value of `exJText`. -/
def exPayload : List Json :=
  [Json.obj [("code", Json.str "J18.9"),
             ("description", Json.str "Pneumonia, unspecified organism")]]

/-- A response that is valid JSON but a single object, not an array. -/
def singleObjResp : String := "\x7b\"code\":\"J18.9\"\x7d"

/-- A response that is a JSON array whose elements are not two-field
objects (shape validation must still accept it). -/
def arrRespEx : String := "[\"J18.9\", 7, \x7b\x7d]"

/-- A response that is a valid JSON array whose string field value
contains three backticks. -/
def tickyResp : String :=
  "[\x7b\"code\":\"J18.9\",\"description\":\"Pneu```monia\"\x7d]"

/-- Floor of a real square root computes as `Nat.sqrt` of the floor. -/
theorem natFloor_sqrt_eq (x : ℝ) (hx : 0 ≤ x) :
    ⌊Real.sqrt x⌋₊ = Nat.sqrt ⌊x⌋₊ := by
  apply le_antisymm
  · rw [Nat.le_sqrt]
    apply Nat.le_floor
    push_cast
    have h1 : (⌊Real.sqrt x⌋₊ : ℝ) ≤ Real.sqrt x :=
      Nat.floor_le (Real.sqrt_nonneg x)
    calc (⌊Real.sqrt x⌋₊ : ℝ) * (⌊Real.sqrt x⌋₊ : ℝ)
        ≤ Real.sqrt x * Real.sqrt x :=
          mul_le_mul h1 h1 (by positivity) (Real.sqrt_nonneg x)
      _ = x := Real.mul_self_sqrt hx
  · apply Nat.le_floor
    rw [Real.le_sqrt (by positivity) hx]
    calc ((Nat.sqrt ⌊x⌋₊ : ℝ)) ^ 2
        = ((Nat.sqrt ⌊x⌋₊ * Nat.sqrt ⌊x⌋₊ : ℕ) : ℝ) := by push_cast; ring
      _ ≤ (⌊x⌋₊ : ℝ) := by exact_mod_cast Nat.sqrt_le _
      _ ≤ x := Nat.floor_le hx

/-- The embedded side computation equals the source formula
`int(side * (MAX_PIXELS / (w*h)) ** 0.5)` read over the reals. -/
theorem scaledSide_eq_floor (side w h : Nat) (hwh : 0 < w * h) :
    scaledSide side w h =
      ⌊(side : ℝ) * Real.sqrt ((MAX_PIXELS : ℝ) / ((w : ℝ) * (h : ℝ)))⌋₊ := by
  have hwh' : (0 : ℝ) < (w : ℝ) * (h : ℝ) := by exact_mod_cast hwh
  have hdiv : (0 : ℝ) ≤ (MAX_PIXELS : ℝ) / ((w : ℝ) * (h : ℝ)) := by positivity
  have hside : (side : ℝ) * Real.sqrt ((MAX_PIXELS : ℝ) / ((w : ℝ) * (h : ℝ)))
      = Real.sqrt (((side * side * MAX_PIXELS : ℕ) : ℝ) / (((w * h : ℕ) : ℝ))) := by
    have hnum : (((side * side * MAX_PIXELS : ℕ) : ℝ) / (((w * h : ℕ) : ℝ)))
        = ((side : ℝ)) ^ 2 * ((MAX_PIXELS : ℝ) / ((w : ℝ) * (h : ℝ))) := by
      push_cast
      ring
    rw [hnum, Real.sqrt_mul (by positivity), Real.sqrt_sq (by positivity)]
  rw [hside, natFloor_sqrt_eq _ (by positivity), Nat.floor_div_nat,
    Nat.floor_natCast]
  rfl

/-- Pure arithmetic core of the pixel-count bound: when the input is over
the cap, the product of the two scaled sides is at most the cap. -/
theorem scaled_pixels_le (w h : Nat) (hover : MAX_PIXELS < w * h) :
    scaledSide w w h * scaledSide h w h ≤ MAX_PIXELS := by
  have hn : 0 < w * h := lt_trans (by norm_num [MAX_PIXELS]) hover
  set a := w * w * MAX_PIXELS / (w * h) with ha
  set b := h * h * MAX_PIXELS / (w * h) with hb
  have hab : a * b ≤ MAX_PIXELS * MAX_PIXELS := by
    calc a * b ≤ w * w * MAX_PIXELS * (h * h * MAX_PIXELS) / ((w * h) * (w * h)) :=
          Nat.div_mul_div_le _ _ _ _
      _ = ((w * h) * (w * h)) * (MAX_PIXELS * MAX_PIXELS) / ((w * h) * (w * h)) := by
          ring_nf
      _ = MAX_PIXELS * MAX_PIXELS := Nat.mul_div_cancel_left _ (Nat.mul_pos hn hn)
  have hsq : Nat.sqrt a * Nat.sqrt b * (Nat.sqrt a * Nat.sqrt b)
      ≤ MAX_PIXELS * MAX_PIXELS := by
    calc Nat.sqrt a * Nat.sqrt b * (Nat.sqrt a * Nat.sqrt b)
        = (Nat.sqrt a * Nat.sqrt a) * (Nat.sqrt b * Nat.sqrt b) := by ring
      _ ≤ a * b := Nat.mul_le_mul (Nat.sqrt_le a) (Nat.sqrt_le b)
      _ ≤ MAX_PIXELS * MAX_PIXELS := hab
  have : Nat.sqrt a * Nat.sqrt b ≤ Nat.sqrt (MAX_PIXELS * MAX_PIXELS) :=
    Nat.le_sqrt.mpr hsq
  rwa [Nat.sqrt_eq] at this

/-- Consuming the optional language tag never lengthens the text. -/
theorem dropTag_length_le (l : List Char) : (dropTag l).length ≤ l.length := by
  unfold dropTag
  split
  · simp only [List.length_cons]
    omega
  · exact le_refl _

/-- Step equation of the fuelled fence-removal scan. -/
theorem subTicksF_succ_cons (f : Nat) (c : Char) (rest : List Char) :
    subTicksF (f + 1) (c :: rest) =
      if startsTicks (c :: rest) then subTicksF f (dropTag (rest.drop 2))
      else c :: subTicksF f rest := rfl

/-- The fuelled fence-removal scan is insensitive to the exact fuel as
long as the fuel covers the length of the input. -/
theorem subTicksF_eq (f g : Nat) (l : List Char) (hf : l.length ≤ f)
    (hg : l.length ≤ g) : subTicksF f l = subTicksF g l := by
  induction f generalizing g l with
  | zero =>
    obtain rfl : l = [] := List.length_eq_zero.mp (Nat.le_zero.mp hf)
    cases g <;> rfl
  | succ f ih =>
    cases l with
    | nil => cases g <;> rfl
    | cons c rest =>
      cases g with
      | zero => simp at hg
      | succ g =>
        have hf' : rest.length ≤ f := by simp at hf; omega
        have hg' : rest.length ≤ g := by simp at hg; omega
        have hd : (dropTag (rest.drop 2)).length ≤ rest.length :=
          le_trans (dropTag_length_le _) (by simp)
        rw [subTicksF_succ_cons, subTicksF_succ_cons]
        by_cases hst : startsTicks (c :: rest) = true
        · rw [if_pos hst, if_pos hst]
          exact ih _ _ (le_trans hd hf') (le_trans hd hg')
        · rw [if_neg hst, if_neg hst]
          exact congrArg (c :: ·) (ih _ _ hf' hg')

/-- Unfolding rule: a fence at the head of the text is removed together
with its optional tag. -/
theorem subTicks_cons_ticks (t : List Char) :
    subTicks (tick :: tick :: tick :: t) = subTicks (dropTag t) := by
  have hst : startsTicks (tick :: tick :: tick :: t) = true := by
    simp [startsTicks]
  show subTicksF ((t.length + 2) + 1) (tick :: tick :: tick :: t)
      = subTicksF (dropTag t).length (dropTag t)
  rw [subTicksF_succ_cons, if_pos hst]
  exact subTicksF_eq _ _ _ (le_trans (dropTag_length_le t) (by omega)) le_rfl

/-- Unfolding rule: a character that does not open a fence is kept. -/
theorem subTicks_cons_keep (c : Char) (rest : List Char)
    (h : startsTicks (c :: rest) = false) :
    subTicks (c :: rest) = c :: subTicks rest := by
  show subTicksF (rest.length + 1) (c :: rest) = _
  rw [subTicksF_succ_cons, if_neg (by simp [h])]
  rfl

/-- A text whose first character is not a backtick opens no fence. -/
theorem startsTicks_cons_ne (c : Char) (l : List Char) (hc : c ≠ tick) :
    startsTicks (c :: l) = false := by
  cases l with
  | nil => rfl
  | cons c2 l2 =>
    cases l2 with
    | nil => rfl
    | cons c3 l3 => simp [startsTicks, hc]

/-- Fence markers are removed at any position in the text, not only at
its ends: any backtick-free prefix passes through the scan unchanged and
the fence after it is deleted together with its optional tag. -/
theorem subTicks_append_free (s t : List Char) (hs : tick ∉ s) :
    subTicks (s ++ tick :: tick :: tick :: t) = s ++ subTicks (dropTag t) := by
  induction s with
  | nil => simpa using subTicks_cons_ticks t
  | cons c s ih =>
    obtain ⟨hc, hs'⟩ : ¬tick = c ∧ tick ∉ s := by
      simpa [List.mem_cons] using hs
    have hfree : startsTicks (c :: (s ++ tick :: tick :: tick :: t)) = false :=
      startsTicks_cons_ne c _ (fun h => hc h.symm)
    rw [List.cons_append, subTicks_cons_keep _ _ hfree, ih hs']
    rfl

/-- States persisted by delivery sequences that never deliver to an
already-completed record satisfy: either no results are stored, or the
record is completed with no error message. -/
theorem trace_mutex (doc : Doc) (os : List Outcome)
    (hInv : doc.vlm_results = none ∨
      (doc.status = .completed ∧ doc.error_message = none))
    (hseq : noDeliveryOnCompleted doc os) :
    ∀ d ∈ traceFrom doc os,
      d.vlm_results = none ∨ (d.status = .completed ∧ d.error_message = none) := by
  induction os generalizing doc with
  | nil => intro d hd; simp [traceFrom] at hd
  | cons o rest ih =>
    obtain ⟨hnc, hrest⟩ := hseq
    have hres : doc.vlm_results = none := by
      rcases hInv with h | ⟨hc, _⟩
      · exact h
      · exact absurd hc hnc
    intro d hd
    simp only [traceFrom, List.mem_cons] at hd
    rcases hd with rfl | rfl | hd
    · exact Or.inl hres
    · cases o with
      | success rs => exact Or.inr ⟨rfl, rfl⟩
      | failure k m => exact Or.inl hres
    · refine ih (applyOutcome (markProcessing doc) o) ?_ hrest d hd
      cases o with
      | success rs => exact Or.inr ⟨rfl, rfl⟩
      | failure k m => exact Or.inl hres

/-- Every state persisted by the orchestrator with a populated error
message has status `failed` or `processing`. -/
theorem trace_err_status (doc : Doc) (os : List Outcome) :
    ∀ d ∈ traceFrom doc os,
      d.error_message ≠ none → d.status = .failed ∨ d.status = .processing := by
  induction os generalizing doc with
  | nil => intro d hd; simp [traceFrom] at hd
  | cons o rest ih =>
    intro d hd
    simp only [traceFrom, List.mem_cons] at hd
    rcases hd with rfl | rfl | hd
    · intro _; exact Or.inr rfl
    · cases o with
      | success rs => intro h; exact absurd rfl h
      | failure k m => intro _; exact Or.inl rfl
    · exact ih _ d hd

/-- C1: for every document processed by the orchestrator, a classifier
that fails twice and then succeeds leads to exactly 3 attempts and a
final `completed` record carrying the success payload; a classifier that
always fails leads to exactly 3 attempts (`max_retries = 2`) and a final
`failed` record. -/
theorem C1_retry_bound_end_to_end (b c : Nat → Outcome)
    (k0 k1 : FailureKind) (m0 m1 : String) (p : List Json)
    (fk : Nat → FailureKind) (fm : Nat → String)
    (h0 : b 0 = .failure k0 m0) (h1 : b 1 = .failure k1 m1)
    (h2 : b 2 = .success p) (hc : ∀ i, c i = .failure (fk i) (fm i)) :
    runAttempts b 0 MAX_RETRIES initialDoc =
      ({ status := .completed, vlm_results := some p, error_message := none }, 3) ∧
    runAttempts c 0 MAX_RETRIES initialDoc =
      ({ status := .failed, vlm_results := none, error_message := some (fm 2) }, 3) := by
  constructor
  · simp [MAX_RETRIES, runAttempts, h0, h1, h2, markProcessing, applyOutcome, initialDoc]
  · simp [MAX_RETRIES, runAttempts, hc, markProcessing, applyOutcome, initialDoc]

/-- Witness for C1 at the concrete stubs `bStub` and `cStub`. -/
theorem C1_witness :
    runAttempts bStub 0 MAX_RETRIES initialDoc =
      ({ status := .completed, vlm_results := some pEx, error_message := none }, 3) ∧
    runAttempts cStub 0 MAX_RETRIES initialDoc =
      ({ status := .failed, vlm_results := none, error_message := some "boom" }, 3) :=
  C1_retry_bound_end_to_end bStub cStub .classifierUnavailable .classifierUnavailable
    "boom" "boom" pEx (fun _ => .classifierUnavailable) (fun _ => "boom")
    rfl rfl rfl (fun _ => rfl)

/-- C2 is false on the code: `process_document` catches every exception
and calls `self.retry` unconditionally, so an image-decode failure IS
retried.  With a stub that always fails decoding, 3 attempts are made
(the claim predicts 1); with a stub that fails decoding once and then
succeeds, a second attempt runs and completes the document. -/
theorem C2_counterexample :
    (runAttempts imgStub 0 MAX_RETRIES initialDoc).2 = 3 ∧
    runAttempts imgOnceStub 0 MAX_RETRIES initialDoc =
      ({ status := .completed, vlm_results := some pEx, error_message := none }, 2) :=
  ⟨rfl, rfl⟩

/-- C2 (amended): every failure kind — the three classifier-client kinds
and image-decode failures alike — is retried up to the attempt bound: an
always-failing behavior of any kinds makes exactly `MAX_RETRIES + 1`
attempts, and a single failure of any kind followed by success makes a
second attempt that completes the document. -/
theorem C2_amended_all_kinds_retried (b b' : Nat → Outcome)
    (fk : Nat → FailureKind) (fm : Nat → String)
    (k : FailureKind) (m : String) (p : List Json)
    (hb : ∀ i, b i = .failure (fk i) (fm i))
    (h0 : b' 0 = .failure k m) (h1 : b' 1 = .success p) :
    (runAttempts b 0 MAX_RETRIES initialDoc).2 = MAX_RETRIES + 1 ∧
    runAttempts b' 0 MAX_RETRIES initialDoc =
      ({ status := .completed, vlm_results := some p, error_message := none }, 2) := by
  constructor
  · simp [MAX_RETRIES, runAttempts, hb, markProcessing, applyOutcome, initialDoc]
  · simp [MAX_RETRIES, runAttempts, h0, h1, markProcessing, applyOutcome, initialDoc]

/-- Witness for the amended C2 at the image-decode stubs. -/
theorem C2_witness :
    (runAttempts imgStub 0 MAX_RETRIES initialDoc).2 = MAX_RETRIES + 1 ∧
    runAttempts imgOnceStub 0 MAX_RETRIES initialDoc =
      ({ status := .completed, vlm_results := some pEx, error_message := none }, 2) :=
  C2_amended_all_kinds_retried imgStub imgOnceStub (fun _ => .imageDecode)
    (fun _ => "cannot identify image file") .imageDecode
    "cannot identify image file" pEx (fun _ => rfl) rfl rfl

/-- C3 is false on the code: `process_document` never consults the
current status, so delivering a document whose record is `completed`
re-enters `processing` and persists two state transitions; after a
failing attempt the final status is `failed`, not `completed`. -/
theorem C3_counterexample :
    deliver (some completedDocEx) (.failure .classifierUnavailable "boom") =
      (some { status := .failed, vlm_results := some pEx, error_message := some "boom" },
       [{ status := .processing, vlm_results := some pEx, error_message := none },
        { status := .failed, vlm_results := some pEx, error_message := some "boom" }]) ∧
    completedDocEx.status = .completed ∧
    Status.failed ≠ Status.completed :=
  ⟨rfl, rfl, by decide⟩

/-- C3 (amended): the orchestrator does not short-circuit on a completed
record: every delivery of an existing record, whatever its status —
including `completed` — unconditionally re-enters `processing` and runs
the attempt, persisting its outcome over the record; only a missing
record is a no-op. -/
theorem C3_amended_no_short_circuit (doc : Doc) (o : Outcome)
    (_h : doc.status = .completed) :
    deliver (some doc) o =
      (some (applyOutcome (markProcessing doc) o),
        [markProcessing doc, applyOutcome (markProcessing doc) o]) ∧
    (markProcessing doc).status = .processing ∧
    deliver none o = (none, []) :=
  ⟨rfl, rfl, rfl⟩

/-- Witness for the amended C3 at a concrete completed record. -/
theorem C3_witness :
    deliver (some completedDocEx) (.success pEx) =
      (some (applyOutcome (markProcessing completedDocEx) (.success pEx)),
        [markProcessing completedDocEx,
         applyOutcome (markProcessing completedDocEx) (.success pEx)]) ∧
    (markProcessing completedDocEx).status = .processing ∧
    deliver none (.success pEx) = (none, []) :=
  C3_amended_no_short_circuit completedDocEx (.success pEx) rfl

/-- C4 is false on the code: the failure update saves only `status` and
`error_message` (`update_fields=["status", "error_message"]`), so on a
record that still carries results the failed state has `error_message`
set AND `vlm_results` still present — results are not cleared. -/
theorem C4_counterexample :
    (applyOutcome (markProcessing completedDocEx)
        (.failure .classifierUnavailable "boom")).error_message = some "boom" ∧
    (applyOutcome (markProcessing completedDocEx)
        (.failure .classifierUnavailable "boom")).vlm_results = some pEx ∧
    some pEx ≠ (none : Option (List Json)) :=
  ⟨rfl, rfl, fun h => Option.noConfusion h⟩

/-- C4 (amended): on the `processing → failed` transition the update
persists `status = failed` and the failure's diagnostic text as
`error_message`, but leaves `vlm_results` exactly as it was; results are
absent after the transition only if they were absent before. -/
theorem C4_amended_failure_update (doc : Doc) (k : FailureKind) (m : String) :
    (applyOutcome (markProcessing doc) (.failure k m)).status = .failed ∧
    (applyOutcome (markProcessing doc) (.failure k m)).error_message = some m ∧
    (applyOutcome (markProcessing doc) (.failure k m)).vlm_results = doc.vlm_results :=
  ⟨rfl, rfl, rfl⟩

/-- C5 is false on the code: a successful attempt followed by a
redelivery whose attempt fails reaches a persisted state with both
`vlm_results` and `error_message` populated, because the failure update
does not clear results. -/
theorem C5_counterexample :
    ({ status := .failed, vlm_results := some pEx, error_message := some "boom" } : Doc)
        ∈ traceFrom initialDoc osEx ∧
    ({ status := .failed, vlm_results := some pEx, error_message := some "boom" } : Doc).vlm_results
        ≠ none ∧
    ({ status := .failed, vlm_results := some pEx, error_message := some "boom" } : Doc).error_message
        ≠ none :=
  ⟨List.Mem.tail _ (List.Mem.tail _ (List.Mem.tail _ (List.Mem.head _))),
   fun h => Option.noConfusion h, fun h => Option.noConfusion h⟩

/-- C5 (amended): `vlm_results` and `error_message` are never both
populated in any state persisted by a delivery sequence that never
delivers to a record already in `completed` status; a delivery after
`completed` whose attempt fails can leave both populated. -/
theorem C5_amended_mutual_exclusion (os : List Outcome) (d : Doc)
    (hseq : noDeliveryOnCompleted initialDoc os)
    (hd : d ∈ traceFrom initialDoc os) :
    d.vlm_results = none ∨ d.error_message = none := by
  rcases trace_mutex initialDoc os (Or.inl rfl) hseq d hd with h | ⟨_, h⟩
  · exact Or.inl h
  · exact Or.inr h

/-- Witness for the amended C5: the mid-flight state of a fail-then-retry
sequence. -/
theorem C5_witness :
    ({ status := .processing, vlm_results := none, error_message := some "boom" } : Doc).vlm_results
        = none ∨
    ({ status := .processing, vlm_results := none, error_message := some "boom" } : Doc).error_message
        = none :=
  C5_amended_mutual_exclusion os2Ex _ ⟨by decide, by decide, trivial⟩
    (List.Mem.tail _ (List.Mem.tail _ (List.Mem.head _)))

/-- C6 is false on the code: the `failed → processing` redelivery update
saves only `status`, so the persisted record immediately after a
redelivery still carries the previous attempt's `error_message` while its
status is `processing`, not `failed`. -/
theorem C6_counterexample :
    ({ status := .processing, vlm_results := none, error_message := some "boom" } : Doc)
        ∈ traceFrom initialDoc os2Ex ∧
    ({ status := .processing, vlm_results := none, error_message := some "boom" } : Doc).error_message
        ≠ none ∧
    Status.processing ≠ Status.failed :=
  ⟨List.Mem.tail _ (List.Mem.tail _ (List.Mem.head _)),
   fun h => Option.noConfusion h, by decide⟩

/-- C6 (amended): a populated `error_message` implies status `failed` or
`processing`; the transition to `completed` clears `error_message`, but
the `failed → processing` redelivery update leaves it unchanged, so a
`processing` record may still carry the previous failure's message. -/
theorem C6_amended_error_lifecycle (os : List Outcome) (d : Doc)
    (doc : Doc) (rs : List Json)
    (hd : d ∈ traceFrom initialDoc os) :
    (d.error_message ≠ none → d.status = .failed ∨ d.status = .processing) ∧
    (applyOutcome doc (.success rs)).error_message = none ∧
    (markProcessing doc).error_message = doc.error_message :=
  ⟨trace_err_status initialDoc os d hd, rfl, rfl⟩

/-- Witness for the amended C6 at the record left by a failed first
attempt. -/
theorem C6_witness :
    (failedDocEx.status = .failed ∨ failedDocEx.status = .processing) ∧
    (applyOutcome failedDocEx (.success pEx)).error_message = none ∧
    (markProcessing failedDocEx).error_message = failedDocEx.error_message :=
  ⟨(C6_amended_error_lifecycle [.failure .classifierUnavailable "boom"] failedDocEx
      failedDocEx pEx (List.Mem.tail _ (List.Mem.head _))).1
      (fun h => Option.noConfusion h),
   (C6_amended_error_lifecycle [.failure .classifierUnavailable "boom"] failedDocEx
      failedDocEx pEx (List.Mem.tail _ (List.Mem.head _))).2.1,
   (C6_amended_error_lifecycle [.failure .classifierUnavailable "boom"] failedDocEx
      failedDocEx pEx (List.Mem.tail _ (List.Mem.head _))).2.2⟩

/-- C7: the preprocessor's output pixel count never exceeds the
2,000,000-pixel cap; an input within the cap keeps its dimensions; an
input over the cap is scaled on each side by `sqrt(cap / (w*h))` with
truncation to an integer — the uniform scale preserves the aspect ratio
up to that rounding. -/
theorem C7_preprocess_dims (w h : Nat) :
    (resizedDims w h).1 * (resizedDims w h).2 ≤ MAX_PIXELS ∧
    (w * h ≤ MAX_PIXELS → resizedDims w h = (w, h)) ∧
    (MAX_PIXELS < w * h →
      resizedDims w h =
        (⌊(w : ℝ) * Real.sqrt ((MAX_PIXELS : ℝ) / ((w : ℝ) * (h : ℝ)))⌋₊,
         ⌊(h : ℝ) * Real.sqrt ((MAX_PIXELS : ℝ) / ((w : ℝ) * (h : ℝ)))⌋₊)) := by
  refine ⟨?_, ?_, ?_⟩
  · by_cases hc : MAX_PIXELS < w * h
    · simp only [resizedDims, if_pos hc]
      exact scaled_pixels_le w h hc
    · simp only [resizedDims, if_neg hc]
      exact not_lt.mp hc
  · intro hle
    simp [resizedDims, not_lt.mpr hle]
  · intro hlt
    have hwh : 0 < w * h := lt_trans (by norm_num [MAX_PIXELS]) hlt
    simp only [resizedDims, if_pos hlt]
    rw [scaledSide_eq_floor w w h hwh, scaledSide_eq_floor h w h hwh]

/-- Witness for C7 at a 2000×2000 input (over the cap) and a 100×100
input (within the cap). -/
theorem C7_witness :
    (resizedDims 2000 2000).1 * (resizedDims 2000 2000).2 ≤ MAX_PIXELS ∧
    resizedDims 100 100 = (100, 100) ∧
    resizedDims 2000 2000 =
      (⌊((2000 : Nat) : ℝ) *
          Real.sqrt ((MAX_PIXELS : ℝ) / (((2000 : Nat) : ℝ) * ((2000 : Nat) : ℝ)))⌋₊,
       ⌊((2000 : Nat) : ℝ) *
          Real.sqrt ((MAX_PIXELS : ℝ) / (((2000 : Nat) : ℝ) * ((2000 : Nat) : ℝ)))⌋₊) :=
  ⟨(C7_preprocess_dims 2000 2000).1,
   (C7_preprocess_dims 100 100).2.1 (by decide),
   (C7_preprocess_dims 2000 2000).2.2 (by decide)⟩

/-- C8: a response whose stripped text parses as JSON but not as an array
always fails shape validation with `UnexpectedShapeError`, while a JSON
array passes shape validation and is returned as-is — the elements are
not inspected, so arrays whose elements lack `code`/`description` keys
are accepted (the intentionally lenient validation). -/
theorem C8_shape_validation (raw : String) (j : Json)
    (hp : parseJsonText (stripFences raw) = some j) :
    (j.isArr = false →
      call_vlm_validate raw = .error (.unexpectedShape (pyTypeName j))) ∧
    (∀ es, j = .arr es → call_vlm_validate raw = .ok es) := by
  constructor
  · intro hna
    simp only [call_vlm_validate, hp]
    cases j with
    | arr es => simp [Json.isArr] at hna
    | null => rfl
    | bool b => rfl
    | num n => rfl
    | str s => rfl
    | obj fs => rfl
  · rintro es rfl
    simp only [call_vlm_validate, hp]

/-- Witness for C8: a single JSON object is rejected with the `dict`
diagnostic; an array of a string, a number and an empty object is
accepted unchanged. -/
theorem C8_witness :
    call_vlm_validate singleObjResp =
      .error (.unexpectedShape (pyTypeName (Json.obj [("code", Json.str "J18.9")]))) ∧
    call_vlm_validate arrRespEx = .ok [Json.str "J18.9", Json.num 7, Json.obj []] :=
  ⟨(C8_shape_validation singleObjResp (Json.obj [("code", Json.str "J18.9")]) rfl).1 rfl,
   (C8_shape_validation arrRespEx
      (Json.arr [Json.str "J18.9", Json.num 7, Json.obj []]) rfl).2 _ rfl⟩

/-- C9: the single-entry classifier response parses to the identical
one-element two-field object list whether presented bare, fenced with
triple backticks, or fenced with a `json` language tag, with or without
newlines inside the fences. -/
theorem C9_round_trip :
    call_vlm_validate exJText = .ok exPayload ∧
    call_vlm_validate ("```" ++ exJText ++ "```") = .ok exPayload ∧
    call_vlm_validate ("```json" ++ exJText ++ "```") = .ok exPayload ∧
    call_vlm_validate ("```json\n" ++ exJText ++ "\n```") = .ok exPayload ∧
    call_vlm_validate ("```\n" ++ exJText ++ "\n```") = .ok exPayload :=
  ⟨rfl, rfl, rfl, rfl, rfl⟩

/-- C10: the fence-stripping substitution removes every occurrence of
three backticks (with an optional `json` tag) anywhere in the response
text, not only leading or trailing markers: any backtick-free prefix
passes through unchanged and the occurrence after it is deleted.
Consequently a valid JSON array whose string field value contains three
backticks comes back with those characters deleted from the value — the
parsed value differs from the value as sent. -/
theorem C10_global_fence_removal (s t : List Char) (hs : tick ∉ s) :
    subTicks (s ++ tick :: tick :: tick :: t) = s ++ subTicks (dropTag t) ∧
    subTicks (s ++ tick :: tick :: tick :: 'j' :: 's' :: 'o' :: 'n' :: t)
      = s ++ subTicks t ∧
    call_vlm_validate tickyResp =
      .ok [Json.obj [("code", Json.str "J18.9"),
                     ("description", Json.str "Pneumonia")]] ∧
    Json.str "Pneumonia" ≠ Json.str "Pneu```monia" := by
  refine ⟨subTicks_append_free s t hs, ?_, rfl, ?_⟩
  · exact subTicks_append_free s ('j' :: 's' :: 'o' :: 'n' :: t) hs
  · intro h
    injection h with h'
    exact absurd h' (by decide)

/-- Witness for C10 at a concrete backtick-free prefix and suffix. -/
theorem C10_witness :
    subTicks (['a', 'b'] ++ tick :: tick :: tick :: ['c'])
      = ['a', 'b'] ++ subTicks (dropTag ['c']) ∧
    subTicks (['a', 'b'] ++ tick :: tick :: tick :: 'j' :: 's' :: 'o' :: 'n' :: ['c'])
      = ['a', 'b'] ++ subTicks ['c'] ∧
    call_vlm_validate tickyResp =
      .ok [Json.obj [("code", Json.str "J18.9"),
                     ("description", Json.str "Pneumonia")]] ∧
    Json.str "Pneumonia" ≠ Json.str "Pneu```monia" :=
  C10_global_fence_removal ['a', 'b'] ['c'] (by decide)
